import Mathlib

/-!
Verification of the `simpler_timer` crate (`src/lib.rs`).

Shallow embedding: monotonic instants and durations are natural numbers of
clock ticks. A `Timer` value holds the current contents of its
`Cell<Instant>` reference point together with its configured duration.
Every method receives the clock reading `now` at which it is invoked;
`Instant::elapsed` is `now - reference_point` (saturating at zero, matching
the monotonic-clock contract of `std::time::Instant`). Methods that may
touch the `Cell` are additionally given as state transformers that return
the post-call timer state, mirroring which bodies call `Cell::set`.
-/

/-- `struct Timer { instant: Cell<Instant>, duration: Duration }`:
`instant` is the current contents of the reference-point cell,
`duration` the configured duration. -/
structure Timer where
  instant : Nat
  duration : Nat
deriving Repr, DecidableEq

/-- `Duration::checked_sub`: `some (a - b)` when `b ≤ a`, `none` on underflow. -/
def checked_sub (a b : Nat) : Option Nat :=
  if b ≤ a then some (a - b) else none

namespace Timer

/-- `Timer::new()`: duration zero, reference point set to the construction
instant (`Instant::now()`). -/
def new (now : Nat) : Timer :=
  { instant := now, duration := 0 }

/-- `Timer::with_duration(duration)`: builds `Timer::new()` and then
overwrites the `duration` field. -/
def with_duration (now d : Nat) : Timer :=
  let timer := Timer.new now
  { timer with duration := d }

/-- `Timer::reset(&self)`: `self.instant.set(Instant::now())`. -/
def reset (t : Timer) (now : Nat) : Timer :=
  { t with instant := now }

/-- `self.instant.get().elapsed()`: time since the reference point. -/
def elapsed (t : Timer) (now : Nat) : Nat :=
  now - t.instant

/-- `Timer::expired(&self)`: `self.instant.get().elapsed() >= self.duration`. -/
def expired (t : Timer) (now : Nat) : Bool :=
  decide (t.elapsed now ≥ t.duration)

/-- `Timer::wait(&self)`: the sleep issued by the body
`if let Some(duration) = self.duration.checked_sub(self.instant.get().elapsed())`
then `std::thread::sleep(duration)`; `some d` means a single
`thread::sleep(d)` call, `none` means no sleep call at all. -/
def wait (t : Timer) (now : Nat) : Option Nat :=
  match checked_sub t.duration (t.elapsed now) with
  | some duration => some duration
  | none => none

/-- `#[derive(Clone)]`: `Cell<Instant>` clones by copying its current
contents, `Duration` by value. -/
def clone (t : Timer) : Timer :=
  { instant := t.instant, duration := t.duration }

/-- State-transformer view of `expired`: its body only calls `Cell::get`,
so the timer state after the call is the input state. -/
def expiredRun (t : Timer) (now : Nat) : Bool × Timer :=
  (t.expired now, t)

/-- State-transformer view of `elapsed`: its body only calls `Cell::get`. -/
def elapsedRun (t : Timer) (now : Nat) : Nat × Timer :=
  (t.elapsed now, t)

/-- State-transformer view of `duration`: its body reads the plain field. -/
def durationRun (t : Timer) : Nat × Timer :=
  (t.duration, t)

/-- State-transformer view of `wait`: its body only calls `Cell::get`
before sleeping. -/
def waitRun (t : Timer) (now : Nat) : Option Nat × Timer :=
  (t.wait now, t)

/-- State-transformer view of `reset`: its body calls `Cell::set`. -/
def resetRun (t : Timer) (now : Nat) : Unit × Timer :=
  ((), t.reset now)

end Timer

/-- Resetting through the clone's handle: `derive(Clone)` copies the
`Cell` contents, so the two timers own distinct cells and a `reset` on the
clone writes only the clone's cell. -/
def resetCloneOf (p : Timer × Timer) (now : Nat) : Timer × Timer :=
  (p.1, p.2.reset now)

/-- Resetting through the original's handle leaves the clone's cell alone. -/
def resetOrigOf (p : Timer × Timer) (now : Nat) : Timer × Timer :=
  (p.1.reset now, p.2)

/-- C1: `expired()` returns true iff `elapsed()` meets or exceeds the
configured duration; the boundary is inclusive (equality counts as
expired), and a zero-duration timer is expired at every instant. -/
theorem expired_iff_duration_le_elapsed (t : Timer) (now : Nat) :
    (t.expired now = true ↔ t.duration ≤ t.elapsed now)
    ∧ (t.elapsed now = t.duration → t.expired now = true)
    ∧ (t.duration = 0 → t.expired now = true) := by
  refine ⟨by simp [Timer.expired], ?_, ?_⟩ <;>
    intro h <;> simp [Timer.expired, h]

/-- C1 witness: a timer of duration 5 whose elapsed time is exactly 5 is
expired. -/
theorem expired_iff_duration_le_elapsed_witness :
    (Timer.with_duration 0 5).expired 5 = true :=
  (expired_iff_duration_le_elapsed (Timer.with_duration 0 5) 5).1.mpr (by decide)

/-- C2: a timer freshly built by `with_duration` (or `new` when the
duration is zero) is expired at the construction instant iff its duration
is zero, and at any later instant it is expired exactly when the time
elapsed since construction reaches the duration. -/
theorem fresh_timer_expiry (c d now : Nat) :
    ((Timer.with_duration c d).expired c = true ↔ d = 0)
    ∧ ((Timer.new c).expired c = true)
    ∧ ((Timer.with_duration c d).expired now = true ↔ d ≤ now - c) := by
  simp [Timer.with_duration, Timer.new, Timer.expired, Timer.elapsed]

/-- C3: when `wait()` is called with `elapsed()` already at or past the
configured duration, `checked_sub` saturates: either no sleep call is
issued at all, or the single issued sleep has length exactly zero, so the
call blocks for no time and returns immediately. -/
theorem wait_expired_no_blocking (t : Timer) (now : Nat)
    (h : t.duration ≤ t.elapsed now) :
    t.wait now = none ∨ t.wait now = some 0 := by
  unfold Timer.wait checked_sub
  rcases Nat.lt_or_ge t.duration (t.elapsed now) with hlt | hge
  · left
    simp [Nat.not_le.mpr hlt]
  · right
    have heq : t.elapsed now = t.duration := Nat.le_antisymm hge h
    simp [heq]

/-- C3 witness: a duration-2 timer with 5 ticks elapsed issues no sleep. -/
theorem wait_expired_no_blocking_witness :
    (Timer.with_duration 0 2).wait 5 = none
    ∨ (Timer.with_duration 0 2).wait 5 = some 0 :=
  wait_expired_no_blocking (Timer.with_duration 0 2) 5 (by decide)

/-- C4: `wait()` on a pending timer issues exactly one sleep, of length
`duration - elapsed-at-call-time`; whenever any time has already elapsed,
that length is strictly less than the full configured duration. -/
theorem wait_pending_sleeps_remainder (t : Timer) (now : Nat)
    (h : t.elapsed now < t.duration) :
    t.wait now = some (t.duration - t.elapsed now)
    ∧ (0 < t.elapsed now → t.duration - t.elapsed now < t.duration) := by
  constructor
  · unfold Timer.wait checked_sub
    simp [Nat.le_of_lt h]
  · intro hpos
    exact Nat.sub_lt (Nat.lt_of_le_of_lt (Nat.zero_le _) h) hpos

/-- C4 witness: a duration-10 timer with 3 ticks elapsed sleeps 7, and
7 is less than the full duration 10. -/
theorem wait_pending_sleeps_remainder_witness :
    (Timer.with_duration 0 10).wait 3 = some 7 ∧ (7 : Nat) < 10 := by
  have h := wait_pending_sleeps_remainder (Timer.with_duration 0 10) 3 (by decide)
  exact ⟨h.1, h.2 (by decide)⟩

/-- C5: the configured duration is fixed at construction: `with_duration d`
stores `d`, and `reset`, `expired`, `elapsed`, `duration` and `wait` all
leave the stored duration unchanged. -/
theorem duration_immutable (c d now : Nat) (t : Timer) :
    (Timer.with_duration c d).duration = d
    ∧ (t.reset now).duration = t.duration
    ∧ ((t.expiredRun now).2).duration = t.duration
    ∧ ((t.elapsedRun now).2).duration = t.duration
    ∧ (t.durationRun.2).duration = t.duration
    ∧ ((t.waitRun now).2).duration = t.duration
    ∧ ((t.resetRun now).2).duration = t.duration := by
  refine ⟨rfl, rfl, rfl, rfl, rfl, rfl, rfl⟩

/-- C6: `reset()` sets the reference point to the current instant and
changes nothing else; immediately afterwards `elapsed()` is zero, and for
a positive configured duration `expired()` is false. -/
theorem reset_restarts_window (t : Timer) (now : Nat) :
    (t.reset now).instant = now
    ∧ (t.reset now).duration = t.duration
    ∧ (t.reset now).elapsed now = 0
    ∧ (0 < t.duration → (t.reset now).expired now = false) := by
  refine ⟨rfl, rfl, by simp [Timer.reset, Timer.elapsed], ?_⟩
  intro h
  simp [Timer.reset, Timer.expired, Timer.elapsed, Nat.lt_iff_add_one_le] at h ⊢
  omega

/-- C6 witness: resetting a duration-4 timer at instant 9 gives reference
point 9, unchanged duration, zero elapsed and a non-expired timer. -/
theorem reset_restarts_window_witness :
    ((Timer.with_duration 0 4).reset 9).instant = 9
    ∧ ((Timer.with_duration 0 4).reset 9).duration = 4
    ∧ ((Timer.with_duration 0 4).reset 9).elapsed 9 = 0
    ∧ ((Timer.with_duration 0 4).reset 9).expired 9 = false := by
  have h := reset_restarts_window (Timer.with_duration 0 4) 9
  exact ⟨h.1, h.2.1, h.2.2.1, h.2.2.2 (by decide)⟩

/-- C7: `elapsed()` is `now - reference_point` on the (saturating)
monotonic clock, and is monotonically non-decreasing between two clock
readings with no intervening reset. -/
theorem elapsed_monotone (t : Timer) (n1 n2 : Nat) (h : n1 ≤ n2) :
    t.elapsed n2 = n2 - t.instant
    ∧ t.elapsed n1 ≤ t.elapsed n2 := by
  exact ⟨rfl, Nat.sub_le_sub_right h _⟩

/-- C7 witness: for a timer with reference point 2, elapsed at 3 is
1 = 3 - 2 and does not exceed elapsed at 8. -/
theorem elapsed_monotone_witness :
    (Timer.with_duration 2 7).elapsed 8 = 8 - 2
    ∧ (Timer.with_duration 2 7).elapsed 3 ≤ (Timer.with_duration 2 7).elapsed 8 :=
  elapsed_monotone (Timer.with_duration 2 7) 3 8 (by decide)

/-- C8: `expired`, `elapsed`, `duration` and `wait` leave both stored
fields unchanged; only `reset` writes, and it writes only the reference
point. Consequently an expired timer can only become pending again through
`reset`: with no reset, once expired it stays expired at every later
instant. -/
theorem state_changes_only_via_reset (t : Timer) (n1 n2 : Nat) :
    (t.expiredRun n1).2 = t
    ∧ (t.elapsedRun n1).2 = t
    ∧ t.durationRun.2 = t
    ∧ (t.waitRun n1).2 = t
    ∧ (t.resetRun n1).2 = { t with instant := n1 }
    ∧ (n1 ≤ n2 → t.expired n1 = true → t.expired n2 = true) := by
  refine ⟨rfl, rfl, rfl, rfl, rfl, ?_⟩
  intro hle h
  simp [Timer.expired, Timer.elapsed] at h ⊢
  exact Nat.le_trans h (Nat.sub_le_sub_right hle _)

/-- C8 witness: a duration-3 timer with reference point 0, expired at
instant 3, is still expired at instant 5, and the read-only operations at
instant 3 leave it unchanged. -/
theorem state_changes_only_via_reset_witness :
    ((Timer.with_duration 0 3).expiredRun 3).2 = Timer.with_duration 0 3
    ∧ (Timer.with_duration 0 3).expired 5 = true := by
  have h := state_changes_only_via_reset (Timer.with_duration 0 3) 3 5
  exact ⟨h.1, h.2.2.2.2.2 (by decide) (by decide)⟩

/-- C9: `Timer::new()` and `Timer::with_duration(0)` at the same
construction instant produce the same timer value, so reset, expired,
elapsed, duration and wait behave identically on them. -/
theorem new_eq_with_duration_zero (c now : Nat) :
    Timer.with_duration c 0 = Timer.new c
    ∧ (Timer.with_duration c 0).reset now = (Timer.new c).reset now
    ∧ (Timer.with_duration c 0).expired now = (Timer.new c).expired now
    ∧ (Timer.with_duration c 0).elapsed now = (Timer.new c).elapsed now
    ∧ (Timer.with_duration c 0).duration = (Timer.new c).duration
    ∧ (Timer.with_duration c 0).wait now = (Timer.new c).wait now := by
  refine ⟨rfl, rfl, rfl, rfl, rfl, rfl⟩

/-- C10: `clone` copies the reference-point cell's contents and the
configured duration, so the clone equals the original at the moment of
cloning; the clone owns its own cell, so resetting the clone leaves the
original timer untouched (and vice versa), while setting the clone's
reference point to the reset instant. -/
theorem clone_independent (t : Timer) (now : Nat) :
    t.clone.instant = t.instant
    ∧ t.clone.duration = t.duration
    ∧ (resetCloneOf (t, t.clone) now).1 = t
    ∧ (resetOrigOf (t, t.clone) now).2 = t.clone
    ∧ (resetCloneOf (t, t.clone) now).2.instant = now := by
  refine ⟨rfl, rfl, rfl, rfl, rfl⟩
